import Mathlib

/-!
Verification of the SEACrowd dataset-loader ETL contracts, as implemented by
the three loaders `burapha_th`, `cub_bahasa` and `mswc`.  Each loader is
shallowly embedded: the filesystem / parquet / json inputs are passed in as
explicit data, and each `_generate_examples` generator is modelled as a
function returning the list of yielded `(key, record)` pairs together with
an optional error (`some e` when the Python generator would raise after the
listed yields, `none` when it terminates normally).
-/

namespace Seacrowd

/-! ## Shared primitives -/

instance {ε α : Type} [DecidableEq ε] [DecidableEq α] : DecidableEq (Except ε α) := fun a b =>
  match a, b with
  | .ok x, .ok y => if h : x = y then .isTrue (by rw [h]) else .isFalse (by simp [h])
  | .ok _, .error _ => .isFalse (by simp)
  | .error _, .ok _ => .isFalse (by simp)
  | .error x, .error y => if h : x = y then .isTrue (by rw [h]) else .isFalse (by simp [h])

/-- Python `list.index(x)`: the position of the first occurrence of `x`,
raising `ValueError` when `x` is absent. -/
def listIndex (l : List String) (x : String) : Except String Nat :=
  if x ∈ l then .ok (List.indexOf x l) else .error "ValueError"

/-- Python `dict[k]` on an insertion-ordered association list, raising
`KeyError` when the key is absent. -/
def dictGet (d : List (Nat × String)) (k : Nat) : Except String String :=
  match d.find? (fun p => p.1 = k) with
  | some p => .ok p.2
  | none => .error "KeyError"

/-- Python `dict[k] = v` on an insertion-ordered association list: an existing
key keeps its position and gets the new value, a new key is appended. -/
def dictInsert (d : List (String × List String)) (k : String) (v : List String) :
    List (String × List String) :=
  if d.any (fun p => p.1 = k) then
    d.map (fun p => if p.1 = k then (p.1, v) else p)
  else d ++ [(k, v)]

/-- Python `str(i).zfill(w)` for a nonnegative integer rendering: left-pad the
decimal string with zeros up to width `w` (no sign handling is needed, the
loaders only zfill nonnegative numbers). -/
def zfill (w : Nat) (s : String) : String :=
  if w ≤ s.length then s
  else String.mk (List.replicate (w - s.length) '0') ++ s

/-- `os.path.join` for the relative path components the loaders join. -/
def pathJoin (a b : String) : String := a ++ "/" ++ b

/-- Python `str.split(sep)` for a one-character separator, by structural
recursion on the character list (`"".split(sep) == [""]`, and every
occurrence of `sep` opens a new segment). -/
def splitChars (sep : Char) : List Char → List (List Char)
  | [] => [[]]
  | c :: cs =>
    if c = sep then [] :: splitChars sep cs
    else
      match splitChars sep cs with
      | [] => [[c]]
      | h :: t => (c :: h) :: t

/-! ## burapha_th (`BuraphaThDataset`) -/

/-- `label_chr_dig = [str(i).zfill(2) for i in range(78)]`. -/
def label_chr_dig : List String := (List.range 78).map (fun i => zfill 2 (toString i))

/-- `label_syl = [str(i).zfill(3) for i in range(320)]`. -/
def label_syl : List String := (List.range 320).map (fun i => zfill 3 (toString i))

/-- The label enumeration `_generate_examples` indexes into for a task:
`label_chr_dig` when the task is `character` or `digit`, else `label_syl`. -/
def buraphaLabels (task : String) : List String :=
  if task = "character" ∨ task = "digit" then label_chr_dig else label_syl

/-- A record yielded by `BuraphaThDataset._generate_examples`; the `source`
shape carries `{id, image_paths, label}` and the `seacrowd_imtext` shape
carries `{id, image_paths, texts, metadata: {context, labels}}`. -/
inductive BurRecord where
  | source (id : String) (image_paths : String) (label : List Nat)
  | imtext (id : String) (image_paths : List String) (texts : Option String)
      (context : Option String) (labels : List Nat)
  deriving DecidableEq, Repr

/-- The items the generator's two nested loops traverse: for each
`(key, imgs)` of the index dict in order, each `img` of `imgs` in order,
paired with its `key`. -/
def buraphaItems (filepath : List (String × List String)) : List (String × String) :=
  filepath.flatMap (fun p => p.2.map (fun img => (p.1, img)))

/-- The loop body of `BuraphaThDataset._generate_examples`, one item
`(key, img)` per step, threading `counter`.  The `source` and
`seacrowd_imtext` branches yield one record per item (a `label.index` miss
raises `ValueError`, truncating the output there); any other schema takes
neither branch, so the loop yields nothing and terminates normally. -/
def buraphaRun (schema task : String) : List (String × String) → Nat →
    List (Nat × BurRecord) × Option String
  | [], _ => ([], none)
  | (key, img) :: rest, counter =>
    if schema = "source" then
      match listIndex (buraphaLabels task) key with
      | .error e => ([], some e)
      | .ok v =>
        let r := buraphaRun schema task rest (counter + 1)
        ((counter, .source (toString counter) img [v]) :: r.1, r.2)
    else if schema = "seacrowd_imtext" then
      match listIndex (buraphaLabels task) key with
      | .error e => ([], some e)
      | .ok v =>
        let r := buraphaRun schema task rest (counter + 1)
        ((counter, .imtext (toString counter) [img] none none [v]) :: r.1, r.2)
    else
      buraphaRun schema task rest (counter + 1)

/-- `BuraphaThDataset._generate_examples(filepath, split)`: the `split`
argument is accepted (as in the Python signature) but never read. -/
def buraphaGenerateExamples (schema task : String)
    (filepath : List (String × List String)) (split : String) :
    List (Nat × BurRecord) × Option String :=
  buraphaRun schema task (buraphaItems filepath) 0

/-- `dir_name.split("-")[0]`: the first `-`-delimited segment of a child
directory's name (`str.split` always returns at least one segment). -/
def dirLabel (s : String) : String :=
  match splitChars '-' s.toList with
  | [] => ""
  | a :: _ => String.mk a

/-- The joined paths of one child directory's files,
`os.path.join(train_path, dir_name, file_name)` in listing order. -/
def dirFiles (train_path : String) (p : String × List String) : List String :=
  p.2.map (fun f => pathJoin (pathJoin train_path p.1) f)

/-- The directory-scanning loop of `BuraphaThDataset._split_generators`
(lines 119–129): for each child `dir_name` of the train directory (with its
file listing), key `dir_name.split("-")[0]` maps to the joined paths of the
child's files. `dirs` is the `os.listdir` enumeration of the train directory,
each name paired with the `os.listdir` enumeration of that child. -/
def scanLayout (train_path : String) (dirs : List (String × List String)) :
    List (String × List String) :=
  dirs.foldl (fun data_pair p => dictInsert data_pair (dirLabel p.1) (dirFiles train_path p)) []

/-- Python `dict.get`-style lookup on an insertion-ordered association list
(the reading side of `data_pair[label]`). -/
def dictFind (d : List (String × List String)) (k : String) : Option (List String) :=
  (d.find? (fun p => p.1 = k)).map Prod.snd

/-- `BuraphaThDataset._split_generators`: both the TRAIN and the TEST
`SplitGenerator` receive the same `data_pair`, scanned from the train
directory only; the test directory's contents are never read. -/
def buraphaSplitGenerators (train_path test_path : String)
    (trainDirs testDirs : List (String × List String)) :
    List ((List (String × List String)) × String) :=
  let data_pair := scanLayout train_path trainDirs
  [(data_pair, "train"), (data_pair, "test")]

/-- The label codes a yielded burapha record carries (`label` in the source
shape, `metadata.labels` in the seacrowd_imtext shape). -/
def burLabelCodes : BurRecord → List Nat
  | .source _ _ l => l
  | .imtext _ _ _ _ l => l

/-- Reference description of the `source` branch output of
`BuraphaThDataset._generate_examples` when every key resolves. -/
def burSourceExpected (task : String) : Nat → List (String × String) → List (Nat × BurRecord)
  | _, [] => []
  | c, (key, img) :: rest =>
    (c, .source (toString c) img [List.indexOf key (buraphaLabels task)]) ::
      burSourceExpected task (c + 1) rest

/-- Reference description of the `seacrowd_imtext` branch output of
`BuraphaThDataset._generate_examples` when every key resolves. -/
def burImtextExpected (task : String) : Nat → List (String × String) → List (Nat × BurRecord)
  | _, [] => []
  | c, (key, img) :: rest =>
    (c, .imtext (toString c) [img] none none [List.indexOf key (buraphaLabels task)]) ::
      burImtextExpected task (c + 1) rest

/-! ## cub_bahasa (`CubBahasaDataset`) -/

/-- `CubBahasaDataset.IMAGE_CLASS`: the class-id → class-name dictionary. -/
def IMAGE_CLASS : List (Nat × String) := [
    (1, "001.Black_footed_Albatross"),
    (2, "002.Laysan_Albatross"),
    (3, "003.Sooty_Albatross"),
    (4, "004.Groove_billed_Ani"),
    (5, "005.Crested_Auklet"),
    (6, "006.Least_Auklet"),
    (7, "007.Parakeet_Auklet"),
    (8, "008.Rhinoceros_Auklet"),
    (9, "009.Brewer_Blackbird"),
    (10, "010.Red_winged_Blackbird"),
    (11, "011.Rusty_Blackbird"),
    (12, "012.Yellow_headed_Blackbird"),
    (13, "013.Bobolink"),
    (14, "014.Indigo_Bunting"),
    (15, "015.Lazuli_Bunting"),
    (16, "016.Painted_Bunting"),
    (17, "017.Cardinal"),
    (18, "018.Spotted_Catbird"),
    (19, "019.Gray_Catbird"),
    (20, "020.Yellow_breasted_Chat"),
    (21, "021.Eastern_Towhee"),
    (22, "022.Chuck_will_Widow"),
    (23, "023.Brandt_Cormorant"),
    (24, "024.Red_faced_Cormorant"),
    (25, "025.Pelagic_Cormorant"),
    (26, "026.Bronzed_Cowbird"),
    (27, "027.Shiny_Cowbird"),
    (28, "028.Brown_Creeper"),
    (29, "029.American_Crow"),
    (30, "030.Fish_Crow"),
    (31, "031.Black_billed_Cuckoo"),
    (32, "032.Mangrove_Cuckoo"),
    (33, "033.Yellow_billed_Cuckoo"),
    (34, "034.Gray_crowned_Rosy_Finch"),
    (35, "035.Purple_Finch"),
    (36, "036.Northern_Flicker"),
    (37, "037.Acadian_Flycatcher"),
    (38, "038.Great_Crested_Flycatcher"),
    (39, "039.Least_Flycatcher"),
    (40, "040.Olive_sided_Flycatcher"),
    (41, "041.Scissor_tailed_Flycatcher"),
    (42, "042.Vermilion_Flycatcher"),
    (43, "043.Yellow_bellied_Flycatcher"),
    (44, "044.Frigatebird"),
    (45, "045.Northern_Fulmar"),
    (46, "046.Gadwall"),
    (47, "047.American_Goldfinch"),
    (48, "048.European_Goldfinch"),
    (49, "049.Boat_tailed_Grackle"),
    (50, "050.Eared_Grebe"),
    (51, "051.Horned_Grebe"),
    (52, "052.Pied_billed_Grebe"),
    (53, "053.Western_Grebe"),
    (54, "054.Blue_Grosbeak"),
    (55, "055.Evening_Grosbeak"),
    (56, "056.Pine_Grosbeak"),
    (57, "057.Rose_breasted_Grosbeak"),
    (58, "058.Pigeon_Guillemot"),
    (59, "059.California_Gull"),
    (60, "060.Glaucous_winged_Gull"),
    (61, "061.Heermann_Gull"),
    (62, "062.Herring_Gull"),
    (63, "063.Ivory_Gull"),
    (64, "064.Ring_billed_Gull"),
    (65, "065.Slaty_backed_Gull"),
    (66, "066.Western_Gull"),
    (67, "067.Anna_Hummingbird"),
    (68, "068.Ruby_throated_Hummingbird"),
    (69, "069.Rufous_Hummingbird"),
    (70, "070.Green_Violetear"),
    (71, "071.Long_tailed_Jaeger"),
    (72, "072.Pomarine_Jaeger"),
    (73, "073.Blue_Jay"),
    (74, "074.Florida_Jay"),
    (75, "075.Green_Jay"),
    (76, "076.Dark_eyed_Junco"),
    (77, "077.Tropical_Kingbird"),
    (78, "078.Gray_Kingbird"),
    (79, "079.Belted_Kingfisher"),
    (80, "080.Green_Kingfisher"),
    (81, "081.Pied_Kingfisher"),
    (82, "082.Ringed_Kingfisher"),
    (83, "083.White_breasted_Kingfisher"),
    (84, "084.Red_legged_Kittiwake"),
    (85, "085.Horned_Lark"),
    (86, "086.Pacific_Loon"),
    (87, "087.Mallard"),
    (88, "088.Western_Meadowlark"),
    (89, "089.Hooded_Merganser"),
    (90, "090.Red_breasted_Merganser"),
    (91, "091.Mockingbird"),
    (92, "092.Nighthawk"),
    (93, "093.Clark_Nutcracker"),
    (94, "094.White_breasted_Nuthatch"),
    (95, "095.Baltimore_Oriole"),
    (96, "096.Hooded_Oriole"),
    (97, "097.Orchard_Oriole"),
    (98, "098.Scott_Oriole"),
    (99, "099.Ovenbird"),
    (100, "100.Brown_Pelican"),
    (101, "101.White_Pelican"),
    (102, "102.Western_Wood_Pewee"),
    (103, "103.Sayornis"),
    (104, "104.American_Pipit"),
    (105, "105.Whip_poor_Will"),
    (106, "106.Horned_Puffin"),
    (107, "107.Common_Raven"),
    (108, "108.White_necked_Raven"),
    (109, "109.American_Redstart"),
    (110, "110.Geococcyx"),
    (111, "111.Loggerhead_Shrike"),
    (112, "112.Great_Grey_Shrike"),
    (113, "113.Baird_Sparrow"),
    (114, "114.Black_throated_Sparrow"),
    (115, "115.Brewer_Sparrow"),
    (116, "116.Chipping_Sparrow"),
    (117, "117.Clay_colored_Sparrow"),
    (118, "118.House_Sparrow"),
    (119, "119.Field_Sparrow"),
    (120, "120.Fox_Sparrow"),
    (121, "121.Grasshopper_Sparrow"),
    (122, "122.Harris_Sparrow"),
    (123, "123.Henslow_Sparrow"),
    (124, "124.Le_Conte_Sparrow"),
    (125, "125.Lincoln_Sparrow"),
    (126, "126.Nelson_Sharp_tailed_Sparrow"),
    (127, "127.Savannah_Sparrow"),
    (128, "128.Seaside_Sparrow"),
    (129, "129.Song_Sparrow"),
    (130, "130.Tree_Sparrow"),
    (131, "131.Vesper_Sparrow"),
    (132, "132.White_crowned_Sparrow"),
    (133, "133.White_throated_Sparrow"),
    (134, "134.Cape_Glossy_Starling"),
    (135, "135.Bank_Swallow"),
    (136, "136.Barn_Swallow"),
    (137, "137.Cliff_Swallow"),
    (138, "138.Tree_Swallow"),
    (139, "139.Scarlet_Tanager"),
    (140, "140.Summer_Tanager"),
    (141, "141.Artic_Tern"),
    (142, "142.Black_Tern"),
    (143, "143.Caspian_Tern"),
    (144, "144.Common_Tern"),
    (145, "145.Elegant_Tern"),
    (146, "146.Forsters_Tern"),
    (147, "147.Least_Tern"),
    (148, "148.Green_tailed_Towhee"),
    (149, "149.Brown_Thrasher"),
    (150, "150.Sage_Thrasher"),
    (151, "151.Black_capped_Vireo"),
    (152, "152.Blue_headed_Vireo"),
    (153, "153.Philadelphia_Vireo"),
    (154, "154.Red_eyed_Vireo"),
    (155, "155.Warbling_Vireo"),
    (156, "156.White_eyed_Vireo"),
    (157, "157.Yellow_throated_Vireo"),
    (158, "158.Bay_breasted_Warbler"),
    (159, "159.Black_and_white_Warbler"),
    (160, "160.Black_throated_Blue_Warbler"),
    (161, "161.Blue_winged_Warbler"),
    (162, "162.Canada_Warbler"),
    (163, "163.Cape_May_Warbler"),
    (164, "164.Cerulean_Warbler"),
    (165, "165.Chestnut_sided_Warbler"),
    (166, "166.Golden_winged_Warbler"),
    (167, "167.Hooded_Warbler"),
    (168, "168.Kentucky_Warbler"),
    (169, "169.Magnolia_Warbler"),
    (170, "170.Mourning_Warbler"),
    (171, "171.Myrtle_Warbler"),
    (172, "172.Nashville_Warbler"),
    (173, "173.Orange_crowned_Warbler"),
    (174, "174.Palm_Warbler"),
    (175, "175.Pine_Warbler"),
    (176, "176.Prairie_Warbler"),
    (177, "177.Prothonotary_Warbler"),
    (178, "178.Swainson_Warbler"),
    (179, "179.Tennessee_Warbler"),
    (180, "180.Wilson_Warbler"),
    (181, "181.Worm_eating_Warbler"),
    (182, "182.Yellow_Warbler"),
    (183, "183.Northern_Waterthrush"),
    (184, "184.Louisiana_Waterthrush"),
    (185, "185.Bohemian_Waxwing"),
    (186, "186.Cedar_Waxwing"),
    (187, "187.American_Three_toed_Woodpecker"),
    (188, "188.Pileated_Woodpecker"),
    (189, "189.Red_bellied_Woodpecker"),
    (190, "190.Red_cockaded_Woodpecker"),
    (191, "191.Red_headed_Woodpecker"),
    (192, "192.Downy_Woodpecker"),
    (193, "193.Bewick_Wren"),
    (194, "194.Cactus_Wren"),
    (195, "195.Carolina_Wren"),
    (196, "196.House_Wren"),
    (197, "197.Marsh_Wren"),
    (198, "198.Rock_Wren"),
    (199, "199.Winter_Wren"),
    (200, "200.Common_Yellowthroat")
]

/-- One row of the joined cub_bahasa table: columns
`image_id, image_path, en_caption, id_caption, class_id, is_train`. -/
structure CubRow where
  image_id : Nat
  image_path : String
  en_caption : List String
  id_caption : List String
  class_id : Nat
  is_train : Nat
  deriving DecidableEq, Repr

/-- A row of `df_image` (from `images.txt`, with `image_path` already
resolved to a full path). -/
structure CubImage where
  image_id : Nat
  image_path : String
  deriving DecidableEq, Repr

/-- One caption entry of the flattened `df_text`
(`image_name, en_caption, id_caption`). -/
structure CubCaption where
  image_name : String
  en_caption : String
  id_caption : String
  deriving DecidableEq, Repr

/-- A row of `grouped_text = df_text.groupby('image_name').agg(list)`. -/
structure CubTextRow where
  image_name : String
  en_caption : List String
  id_caption : List String
  deriving DecidableEq, Repr

/-- A row of `df_label` (from `image_class_labels.txt`). -/
structure CubLabel where
  image_id : Nat
  class_id : Nat
  deriving DecidableEq, Repr

/-- A row of `df_split` (from `train_test_split.txt`). -/
structure CubSplit where
  image_id : Nat
  is_train : Nat
  deriving DecidableEq, Repr

/-- `Path(image_path).name`: the last `/`-separated component. -/
def imageName (p : String) : String := String.mk ((splitChars '/' p.toList).getLastD [])

/-- `df_text.groupby('image_name').agg(list)`: one row per distinct
`image_name`, its caption columns collected into lists in row order.
(pandas sorts the group keys; the key order is irrelevant downstream because
the subsequent inner merge orders its result by the left table's keys, so the
groups are kept here in first-occurrence order.) -/
def groupCaptions (caps : List CubCaption) : List CubTextRow :=
  ((caps.map (fun c => c.image_name)).dedup).map
    (fun n =>
      { image_name := n
        en_caption := (caps.filter (fun c => c.image_name = n)).map (fun c => c.en_caption)
        id_caption := (caps.filter (fun c => c.image_name = n)).map (fun c => c.id_caption) })

/-- The contribution of one `df_image` row to the three inner merges of
`CubBahasaDataset._split_generators`: it is paired with every
`grouped_text` row matching its `image_name`, then with every matching
`df_label` row, then with every matching `df_split` row (`pd.merge` with
inner-join semantics keeps the left table's key order). -/
def cubJoinImage (grouped : List CubTextRow) (labels : List CubLabel)
    (splits : List CubSplit) (img : CubImage) : List CubRow :=
  ((grouped.filter (fun t => t.image_name = imageName img.image_path)).flatMap
    (fun t => (labels.filter (fun l => l.image_id = img.image_id)).flatMap
      (fun l => (splits.filter (fun s => s.image_id = img.image_id)).map
        (fun s =>
          { image_id := img.image_id
            image_path := img.image_path
            en_caption := t.en_caption
            id_caption := t.id_caption
            class_id := l.class_id
            is_train := s.is_train }))))

/-- The full joined table `df` of `CubBahasaDataset._split_generators`,
indexed like a pandas frame after `pd.merge` (a fresh 0-based range index). -/
def cubJoin (images : List CubImage) (caps : List CubCaption)
    (labels : List CubLabel) (splits : List CubSplit) : List (Nat × CubRow) :=
  (images.flatMap (cubJoinImage (groupCaptions caps) labels splits)).enum

/-- `df[df['is_train'] == b]`: pandas boolean filtering keeps each surviving
row's original index. -/
def cubSplitData (df : List (Nat × CubRow)) (b : Nat) : List (Nat × CubRow) :=
  df.filter (fun p => p.2.is_train = b)

/-- A record yielded by `CubBahasaDataset._generate_examples`: the `source`
shape `{image_id, class_id, image_path, class_name, captions}` with captions
as (english, indonesian) pairs, or the `seacrowd_imtext` shape
`{id, image_paths, texts, metadata: {context, labels}}` (its `labels` carry
the class NAME looked up in `IMAGE_CLASS`). -/
inductive CubRecord where
  | source (image_id class_id : Nat) (image_path class_name : String)
      (captions : List (String × String))
  | imtext (id : String) (image_paths : List String) (texts : String)
      (context : String) (labels : List String)
  deriving DecidableEq, Repr

/-- The `source` branch of `CubBahasaDataset._generate_examples`: one record
per row, yielded under the row's pandas index `key`; `IMAGE_CLASS[class_id]`
raises `KeyError` when the class id is absent, truncating the output there.
(Python indexes `en_caption[i]`/`id_caption[i]` for `i < len(en_caption)`;
out-of-range indexing is modelled with a `""` default — the join pipeline
always produces caption columns of equal length.) -/
def cubSourceGen : List (Nat × CubRow) → List (Nat × CubRecord) × Option String
  | [] => ([], none)
  | (key, row) :: rest =>
    match dictGet IMAGE_CLASS row.class_id with
    | .error e => ([], some e)
    | .ok cls =>
      let r := cubSourceGen rest
      ((key, .source row.image_id row.class_id row.image_path cls
          ((List.range row.en_caption.length).map
            (fun i => (row.en_caption.getD i "", row.id_caption.getD i "")))) :: r.1,
        r.2)

/-- The inner caption loop of the `seacrowd_imtext` branch for one row:
`for i in range(len(row["id_caption"]))`, yielding one record per caption at
keys `counter, counter+1, ...`; the `IMAGE_CLASS[class_id]` lookup inside
the loop body raises `KeyError` on its first evaluation when the class id is
absent (so a row with a nonempty caption list and an unknown class yields
nothing and aborts, while a row with no captions never runs the body). -/
def cubImtextRow (counter : Nat) (row : CubRow) : List (Nat × CubRecord) × Option String :=
  if row.id_caption.length = 0 then ([], none)
  else
    match dictGet IMAGE_CLASS row.class_id with
    | .error e => ([], some e)
    | .ok cls =>
      ((List.range row.id_caption.length).map
        (fun i =>
          (counter + i, .imtext (toString (counter + i)) [row.image_path]
            (row.id_caption.getD i "") (row.en_caption.getD i "") [cls])),
        none)

/-- The outer row loop of the `seacrowd_imtext` branch, threading `key`
(started at 0) across rows. -/
def cubImtextGen (counter : Nat) : List (Nat × CubRow) → List (Nat × CubRecord) × Option String
  | [] => ([], none)
  | (_, row) :: rest =>
    let r := cubImtextRow counter row
    match r.2 with
    | some e => (r.1, some e)
    | none =>
      let rr := cubImtextGen (counter + row.id_caption.length) rest
      (r.1 ++ rr.1, rr.2)

/-- `CubBahasaDataset._generate_examples(data, split)`: the `source` branch
yields under pandas row indices, the `seacrowd_imtext` branch under a fresh
0-based counter; any other schema takes neither branch and the generator
yields nothing. -/
def cubGenerateExamples (schema : String) (data : List (Nat × CubRow)) :
    List (Nat × CubRecord) × Option String :=
  if schema = "source" then cubSourceGen data
  else if schema = "seacrowd_imtext" then cubImtextGen 0 data
  else ([], none)

/-! ## mswc (`MSWC`) -/

/-- A parquet row of the mswc data, as the dict `row.to_dict()` yields it
(the generator passes rows through unchanged). -/
structure MswcRow where
  fields : List (String × String)
  deriving DecidableEq, Repr

/-- Modelled from the spec: `_SUPPORTED_SCHEMA_STRINGS` is computed from
`TASK_TO_SCHEMA` in `seacrowd/utils/constants.py`, which is not part of the
sources shown; the spec fixes it to the unified speech-text schema name for
the speech-recognition task. -/
def MSWC_SUPPORTED_SCHEMA_STRINGS : List String := ["seacrowd_sptext"]

/-- The per-table loop of `MSWC._generate_examples`: each row of a parquet
table is yielded at `idx, idx+1, ...`. -/
def mswcYieldTable : Nat → List MswcRow → List (Nat × MswcRow)
  | _, [] => []
  | idx, r :: rs => (idx, r) :: mswcYieldTable (idx + 1) rs

/-- The outer path loop of `MSWC._generate_examples`, threading `idx`
across the tables read from the paths. -/
def mswcYieldAll : Nat → List (List MswcRow) → List (Nat × MswcRow)
  | _, [] => []
  | idx, df :: rest => mswcYieldTable idx df ++ mswcYieldAll (idx + df.length) rest

/-- `MSWC._generate_examples(paths)` over the tables those paths hold: the
`source` branch and the branch for a supported seacrowd schema (found by
scanning `_SUPPORTED_SCHEMA_STRINGS`) yield every row with sequential `idx`
from 0 and set `is_schema_found`; otherwise nothing is yielded and the
final `is_schema_found` check raises `ValueError`. -/
def mswcGenerateExamples (schema : String) (tables : List (List MswcRow)) :
    List (Nat × MswcRow) × Option String :=
  if schema = "source" then (mswcYieldAll 0 tables, none)
  else if MSWC_SUPPORTED_SCHEMA_STRINGS.contains schema then (mswcYieldAll 0 tables, none)
  else ([], some "ValueError")

/-! ## Concrete scenarios -/

/-- A two-image cub_bahasa input: both images captioned and labelled, the
first assigned to train, the second to test. -/
def cubDemo2Images : List CubImage :=
  [{ image_id := 1, image_path := "root/images/a.jpg" },
   { image_id := 2, image_path := "root/images/b.jpg" }]

def cubDemo2Caps : List CubCaption :=
  [{ image_name := "a.jpg", en_caption := "a bird", id_caption := "seekor burung" },
   { image_name := "b.jpg", en_caption := "a gull", id_caption := "seekor camar" }]

def cubDemo2Labels : List CubLabel :=
  [{ image_id := 1, class_id := 1 }, { image_id := 2, class_id := 1 }]

def cubDemo2Splits : List CubSplit :=
  [{ image_id := 1, is_train := 1 }, { image_id := 2, is_train := 0 }]

/-- A three-image cub_bahasa input: the first two images carry three caption
entries each, the third has no caption entry; every image has a label and a
train split assignment. -/
def cubDemo3Images : List CubImage :=
  [{ image_id := 1, image_path := "root/images/a.jpg" },
   { image_id := 2, image_path := "root/images/b.jpg" },
   { image_id := 3, image_path := "root/images/c.jpg" }]

def cubDemo3Caps : List CubCaption :=
  [{ image_name := "a.jpg", en_caption := "a1", id_caption := "i1" },
   { image_name := "a.jpg", en_caption := "a2", id_caption := "i2" },
   { image_name := "a.jpg", en_caption := "a3", id_caption := "i3" },
   { image_name := "b.jpg", en_caption := "b1", id_caption := "j1" },
   { image_name := "b.jpg", en_caption := "b2", id_caption := "j2" },
   { image_name := "b.jpg", en_caption := "b3", id_caption := "j3" }]

def cubDemo3Labels : List CubLabel :=
  [{ image_id := 1, class_id := 1 }, { image_id := 2, class_id := 2 },
   { image_id := 3, class_id := 3 }]

def cubDemo3Splits : List CubSplit :=
  [{ image_id := 1, is_train := 1 }, { image_id := 2, is_train := 1 },
   { image_id := 3, is_train := 1 }]

/-- A single joined cub_bahasa row with three caption pairs. -/
def cubDemoRow : CubRow :=
  { image_id := 1, image_path := "root/images/a.jpg", en_caption := ["a1", "a2", "a3"],
    id_caption := ["i1", "i2", "i3"], class_id := 1, is_train := 1 }

/-- A joined cub_bahasa row whose class id 0 is absent from `IMAGE_CLASS`
(the dictionary's keys are 1..200). -/
def cubDemoBadRow : CubRow :=
  { image_id := 9, image_path := "root/images/z.jpg", en_caption := ["z1"],
    id_caption := ["y1"], class_id := 0, is_train := 1 }

/-! ## Lemmas about the shared primitives -/

theorem listIndex_of_mem {l : List String} {x : String} (h : x ∈ l) :
    listIndex l x = .ok (List.indexOf x l) := by
  simp [listIndex, h]

theorem listIndex_of_not_mem {l : List String} {x : String} (h : x ∉ l) :
    listIndex l x = .error "ValueError" := by
  simp [listIndex, h]

theorem dictGet_of_not_mem {d : List (Nat × String)} {k : Nat}
    (h : k ∉ d.map Prod.fst) : dictGet d k = .error "KeyError" := by
  have hf : d.find? (fun p => p.1 = k) = none := by
    rw [List.find?_eq_none]
    intro p hp
    simp only [decide_eq_true_eq]
    intro he
    exact h (he ▸ List.mem_map_of_mem Prod.fst hp)
  simp [dictGet, hf]

theorem dictGet_of_mem {d : List (Nat × String)} {k : Nat}
    (h : k ∈ d.map Prod.fst) : ∃ s, dictGet d k = .ok s := by
  have hf : (d.find? (fun p => p.1 = k)).isSome := by
    rw [List.find?_isSome]
    obtain ⟨p, hp, he⟩ := List.mem_map.1 h
    exact ⟨p, hp, by simp [he]⟩
  obtain ⟨p, hp⟩ := Option.isSome_iff_exists.1 hf
  exact ⟨p.2, by simp [dictGet, hp]⟩

/-! ## Lemmas about the burapha_th generator -/

/-- A schema matching neither branch makes the loop yield nothing and
finish without raising. -/
theorem buraphaRun_unknown {schema : String} (h1 : schema ≠ "source")
    (h2 : schema ≠ "seacrowd_imtext") (task : String) :
    ∀ (items : List (String × String)) (c : Nat),
      buraphaRun schema task items c = ([], none) := by
  intro items
  induction items with
  | nil => intro c; simp [buraphaRun]
  | cons p rest ih =>
    intro c
    obtain ⟨key, img⟩ := p
    simp [buraphaRun, h1, h2, ih]

/-- The keys yielded by the burapha loop are consecutive from the starting
counter, for every schema. -/
theorem buraphaRun_ids (schema task : String) :
    ∀ (items : List (String × String)) (c : Nat),
      ((buraphaRun schema task items c).1).map Prod.fst
        = List.range' c ((buraphaRun schema task items c).1).length := by
  intro items
  induction items with
  | nil => intro c; simp [buraphaRun]
  | cons p rest ih =>
    intro c
    obtain ⟨key, img⟩ := p
    by_cases h1 : schema = "source"
    · subst h1
      cases hidx : listIndex (buraphaLabels task) key with
      | error e => simp [buraphaRun, hidx]
      | ok v => simp [buraphaRun, hidx, ih (c + 1), List.range'_succ]
    · by_cases h2 : schema = "seacrowd_imtext"
      · subst h2
        cases hidx : listIndex (buraphaLabels task) key with
        | error e => simp [buraphaRun, h1, hidx]
        | ok v => simp [buraphaRun, h1, hidx, ih (c + 1), List.range'_succ]
      · simp [buraphaRun_unknown h1 h2]

/-- When every key of the index is in the task's enumeration, the `source`
branch yields exactly the reference sequence and raises nothing. -/
theorem buraphaRun_source_char (task : String) :
    ∀ (items : List (String × String)), (∀ p ∈ items, p.1 ∈ buraphaLabels task) →
      ∀ c, buraphaRun "source" task items c = (burSourceExpected task c items, none) := by
  intro items
  induction items with
  | nil => intro _ c; simp [buraphaRun, burSourceExpected]
  | cons p rest ih =>
    intro hall c
    obtain ⟨key, img⟩ := p
    have hk : key ∈ buraphaLabels task := hall (key, img) (by simp)
    have hrest := ih (fun q hq => hall q (List.mem_cons_of_mem _ hq)) (c + 1)
    simp [buraphaRun, listIndex_of_mem hk, burSourceExpected, hrest]

/-- When every key of the index is in the task's enumeration, the
`seacrowd_imtext` branch yields exactly the reference sequence and raises
nothing. -/
theorem buraphaRun_imtext_char (task : String) :
    ∀ (items : List (String × String)), (∀ p ∈ items, p.1 ∈ buraphaLabels task) →
      ∀ c, buraphaRun "seacrowd_imtext" task items c = (burImtextExpected task c items, none) := by
  intro items
  induction items with
  | nil => intro _ c; simp [buraphaRun, burImtextExpected]
  | cons p rest ih =>
    intro hall c
    obtain ⟨key, img⟩ := p
    have hk : key ∈ buraphaLabels task := hall (key, img) (by simp)
    have hrest := ih (fun q hq => hall q (List.mem_cons_of_mem _ hq)) (c + 1)
    simp [buraphaRun, listIndex_of_mem hk, burImtextExpected, hrest]

/-- The `j`-th entry of the reference `source` sequence. -/
theorem burSourceExpected_getElem (task : String) :
    ∀ (items : List (String × String)) (c j : Nat) (key img : String),
      items[j]? = some (key, img) →
      (burSourceExpected task c items)[j]?
        = some (c + j, .source (toString (c + j)) img
            [List.indexOf key (buraphaLabels task)]) := by
  intro items
  induction items with
  | nil => intro c j key img h; simp at h
  | cons p rest ih =>
    intro c j key img h
    cases j with
    | zero =>
      obtain ⟨hk, hi⟩ : p.1 = key ∧ p.2 = img := by
        have : p = (key, img) := by simpa using h
        simp [this]
      obtain ⟨a, b⟩ := p
      simp_all [burSourceExpected]
    | succ j =>
      obtain ⟨a, b⟩ := p
      have := ih (c + 1) j key img (by simpa using h)
      have harith : c + 1 + j = c + (j + 1) := by omega
      rw [harith] at this
      simpa [burSourceExpected] using this

/-- The `j`-th entry of the reference `seacrowd_imtext` sequence. -/
theorem burImtextExpected_getElem (task : String) :
    ∀ (items : List (String × String)) (c j : Nat) (key img : String),
      items[j]? = some (key, img) →
      (burImtextExpected task c items)[j]?
        = some (c + j, .imtext (toString (c + j)) [img] none none
            [List.indexOf key (buraphaLabels task)]) := by
  intro items
  induction items with
  | nil => intro c j key img h; simp at h
  | cons p rest ih =>
    intro c j key img h
    cases j with
    | zero =>
      obtain ⟨hk, hi⟩ : p.1 = key ∧ p.2 = img := by
        have : p = (key, img) := by simpa using h
        simp [this]
      obtain ⟨a, b⟩ := p
      simp_all [burImtextExpected]
    | succ j =>
      obtain ⟨a, b⟩ := p
      have := ih (c + 1) j key img (by simpa using h)
      have harith : c + 1 + j = c + (j + 1) := by omega
      rw [harith] at this
      simpa [burImtextExpected] using this

/-! ## Lemmas about the mswc generator -/

theorem mswcYieldTable_length : ∀ (df : List MswcRow) (idx : Nat),
    (mswcYieldTable idx df).length = df.length := by
  intro df
  induction df with
  | nil => intro idx; simp [mswcYieldTable]
  | cons r rs ih => intro idx; simp [mswcYieldTable, ih]

theorem mswcYieldTable_ids : ∀ (df : List MswcRow) (idx : Nat),
    (mswcYieldTable idx df).map Prod.fst = List.range' idx df.length := by
  intro df
  induction df with
  | nil => intro idx; simp [mswcYieldTable]
  | cons r rs ih => intro idx; simp [mswcYieldTable, ih, List.range'_succ]

theorem mswcYieldAll_ids : ∀ (tables : List (List MswcRow)) (idx : Nat),
    (mswcYieldAll idx tables).map Prod.fst
      = List.range' idx (mswcYieldAll idx tables).length := by
  intro tables
  induction tables with
  | nil => intro idx; simp [mswcYieldAll]
  | cons df rest ih =>
    intro idx
    have happ := List.range'_append idx df.length (mswcYieldAll (idx + df.length) rest).length 1
    simp only [one_mul] at happ
    simp [mswcYieldAll, mswcYieldTable_ids, mswcYieldTable_length, ih (idx + df.length),
      ← happ, Nat.add_comm]

/-! ## Lemmas about the cub_bahasa generator -/

/-- When the row's class id resolves, the caption loop yields one record per
Indonesian caption, keyed consecutively, and never raises. -/
theorem cubImtextRow_char {row : CubRow} {cls : String}
    (hcls : dictGet IMAGE_CLASS row.class_id = .ok cls) (counter : Nat) :
    cubImtextRow counter row =
      ((List.range row.id_caption.length).map (fun i =>
        (counter + i, .imtext (toString (counter + i)) [row.image_path]
          (row.id_caption.getD i "") (row.en_caption.getD i "") [cls])), none) := by
  by_cases h : row.id_caption.length = 0
  · simp [cubImtextRow, h]
  · simp [cubImtextRow, h, hcls]

/-- The caption loop raises exactly when the class id is missing and there is
at least one caption to yield. -/
theorem cubImtextRow_error {row : CubRow} {e : String}
    (hcls : dictGet IMAGE_CLASS row.class_id = .error e)
    (hne : row.id_caption.length ≠ 0) (counter : Nat) :
    cubImtextRow counter row = ([], some e) := by
  simp [cubImtextRow, hne, hcls]

theorem cubImtextRow_fst_of_error {row : CubRow} {counter : Nat} {e : String}
    (h : (cubImtextRow counter row).2 = some e) : (cubImtextRow counter row).1 = [] := by
  by_cases hz : row.id_caption.length = 0
  · simp [cubImtextRow, hz]
  · cases hcls : dictGet IMAGE_CLASS row.class_id with
    | error e2 => simp [cubImtextRow, hz, hcls]
    | ok cls => rw [cubImtextRow_char hcls] at h; simp at h

theorem cubImtextRow_of_ok {row : CubRow} {counter : Nat}
    (h : (cubImtextRow counter row).2 = none) :
    ((cubImtextRow counter row).1).map Prod.fst = List.range' counter row.id_caption.length
      ∧ ((cubImtextRow counter row).1).length = row.id_caption.length := by
  by_cases hz : row.id_caption.length = 0
  · simp [cubImtextRow, hz]
  · cases hcls : dictGet IMAGE_CLASS row.class_id with
    | error e2 => rw [cubImtextRow_error hcls hz] at h; simp at h
    | ok cls =>
      rw [cubImtextRow_char hcls]
      constructor
      · rw [List.map_map]
        have : (Prod.fst ∘ fun i => ((counter + i : Nat),
            CubRecord.imtext (toString (counter + i)) [row.image_path]
              (row.id_caption.getD i "") (row.en_caption.getD i "") [cls]))
            = (fun i => counter + i) := rfl
        rw [this, ← List.range'_eq_map_range]
      · simp

/-- The keys yielded by the `seacrowd_imtext` branch are consecutive from the
starting counter. -/
theorem cubImtextGen_ids : ∀ (data : List (Nat × CubRow)) (counter : Nat),
    ((cubImtextGen counter data).1).map Prod.fst
      = List.range' counter ((cubImtextGen counter data).1).length := by
  intro data
  induction data with
  | nil => intro counter; simp [cubImtextGen]
  | cons p rest ih =>
    intro counter
    obtain ⟨idx, row⟩ := p
    cases herr : (cubImtextRow counter row).2 with
    | some e =>
      simp [cubImtextGen, herr, cubImtextRow_fst_of_error herr]
    | none =>
      obtain ⟨hmap, hlen⟩ := cubImtextRow_of_ok herr
      have happ := List.range'_append counter row.id_caption.length
        ((cubImtextGen (counter + row.id_caption.length) rest).1).length 1
      simp only [one_mul] at happ
      simp [cubImtextGen, herr, hmap, hlen, ih (counter + row.id_caption.length),
        ← happ, Nat.add_comm]

/-- The keys yielded by the `source` branch are the pandas row indices of the
processed prefix of the table. -/
theorem cubSourceGen_ids : ∀ (data : List (Nat × CubRow)),
    ((cubSourceGen data).1).map Prod.fst
      = (data.map Prod.fst).take ((cubSourceGen data).1).length := by
  intro data
  induction data with
  | nil => simp [cubSourceGen]
  | cons p rest ih =>
    obtain ⟨idx, row⟩ := p
    cases hcls : dictGet IMAGE_CLASS row.class_id with
    | error e => simp [cubSourceGen, hcls]
    | ok cls => simp [cubSourceGen, hcls, ih]

/-- A missing class id anywhere in the table makes the `source` branch raise. -/
theorem cubSourceGen_err : ∀ (data : List (Nat × CubRow)),
    (∃ p ∈ data, p.2.class_id ∉ IMAGE_CLASS.map Prod.fst) →
    ((cubSourceGen data).2).isSome := by
  intro data
  induction data with
  | nil => rintro ⟨p, hp, _⟩; simp at hp
  | cons q rest ih =>
    rintro ⟨p, hp, hm⟩
    obtain ⟨idx, row⟩ := q
    rcases List.mem_cons.1 hp with heq | hrest
    · subst heq
      have herr := dictGet_of_not_mem (d := IMAGE_CLASS) (by simpa using hm)
      simp [cubSourceGen, herr]
    · cases hcls : dictGet IMAGE_CLASS row.class_id with
      | error e => simp [cubSourceGen, hcls]
      | ok cls => simpa [cubSourceGen, hcls] using ih ⟨p, hrest, hm⟩

/-- When every class id of the table resolves, the `source` branch never
raises. -/
theorem cubSourceGen_ok : ∀ (data : List (Nat × CubRow)),
    (∀ p ∈ data, p.2.class_id ∈ IMAGE_CLASS.map Prod.fst) →
    ((cubSourceGen data).2) = none := by
  intro data
  induction data with
  | nil => intro _; simp [cubSourceGen]
  | cons q rest ih =>
    intro hall
    obtain ⟨idx, row⟩ := q
    obtain ⟨cls, hcls⟩ := dictGet_of_mem (hall (idx, row) (by simp))
    simpa [cubSourceGen, hcls] using ih (fun p hp => hall p (List.mem_cons_of_mem _ hp))

/-- A missing class id on a row with at least one caption makes the
`seacrowd_imtext` branch raise. -/
theorem cubImtextGen_err : ∀ (data : List (Nat × CubRow)) (counter : Nat),
    (∀ p ∈ data, (p : Nat × CubRow).2.id_caption ≠ []) →
    (∃ p ∈ data, p.2.class_id ∉ IMAGE_CLASS.map Prod.fst) →
    ((cubImtextGen counter data).2).isSome := by
  intro data
  induction data with
  | nil => rintro counter _ ⟨p, hp, _⟩; simp at hp
  | cons q rest ih =>
    rintro counter hne ⟨p, hp, hm⟩
    obtain ⟨idx, row⟩ := q
    rcases List.mem_cons.1 hp with heq | hrest
    · subst heq
      have herr := dictGet_of_not_mem (d := IMAGE_CLASS) (by simpa using hm)
      have hlen : row.id_caption.length ≠ 0 := by
        have := hne (idx, row) (by simp)
        simpa [List.length_eq_zero] using this
      simp [cubImtextGen, cubImtextRow_error herr hlen counter]
    · cases herr : (cubImtextRow counter row).2 with
      | some e => simp [cubImtextGen, herr]
      | none =>
        have := ih (counter + row.id_caption.length)
          (fun p hp => hne p (List.mem_cons_of_mem _ hp)) ⟨p, hrest, hm⟩
        simpa [cubImtextGen, herr] using this

/-- When every class id of the table resolves, the `seacrowd_imtext` branch
never raises. -/
theorem cubImtextGen_ok : ∀ (data : List (Nat × CubRow)) (counter : Nat),
    (∀ p ∈ data, (p : Nat × CubRow).2.class_id ∈ IMAGE_CLASS.map Prod.fst) →
    ((cubImtextGen counter data).2) = none := by
  intro data
  induction data with
  | nil => intro counter _; simp [cubImtextGen]
  | cons q rest ih =>
    intro counter hall
    obtain ⟨idx, row⟩ := q
    obtain ⟨cls, hcls⟩ := dictGet_of_mem (hall (idx, row) (by simp))
    rw [show cubImtextGen counter ((idx, row) :: rest)
        = (let r := cubImtextRow counter row
           match r.2 with
           | some e => (r.1, some e)
           | none =>
             let rr := cubImtextGen (counter + row.id_caption.length) rest
             (r.1 ++ rr.1, rr.2)) from rfl]
    rw [cubImtextRow_char hcls]
    simpa using ih (counter + row.id_caption.length)
      (fun p hp => hall p (List.mem_cons_of_mem _ hp))

/-- An image whose name matches no caption entry contributes no joined row. -/
theorem cubJoinImage_no_caption {caps : List CubCaption} {img : CubImage}
    (labels : List CubLabel) (splits : List CubSplit)
    (h : ∀ c ∈ caps, c.image_name ≠ imageName img.image_path) :
    cubJoinImage (groupCaptions caps) labels splits img = [] := by
  have hfil : (groupCaptions caps).filter
      (fun t => t.image_name = imageName img.image_path) = [] := by
    rw [List.filter_eq_nil_iff]
    intro t ht
    obtain ⟨n, hn, ht⟩ := List.mem_map.1 ht
    have hn2 : n ∈ caps.map (fun c => c.image_name) := List.mem_dedup.1 hn
    obtain ⟨c, hc, hcn⟩ := List.mem_map.1 hn2
    subst ht
    simpa using hcn ▸ h c hc
  simp [cubJoinImage, hfil]

/-! ## Lemmas about the burapha_th layout scanner -/

/-- Reading a dict right after writing a key returns the written value. -/
theorem dictFind_dictInsert_self (d : List (String × List String)) (k : String)
    (v : List String) : dictFind (dictInsert d k v) k = some v := by
  by_cases hany : d.any (fun p => p.1 = k)
  · rw [dictInsert, if_pos hany]
    obtain ⟨p0, hp0, hk0⟩ := List.any_eq_true.1 hany
    clear hany
    induction d with
    | nil => simp at hp0
    | cons q rest ih =>
      rcases List.mem_cons.1 hp0 with heq | hrest
      · subst heq
        simp only [decide_eq_true_eq] at hk0
        simp [dictFind, List.find?_cons, hk0]
      · by_cases hq : q.1 = k
        · simp [dictFind, List.find?_cons, hq]
        · simpa [dictFind, List.find?_cons, hq] using ih hrest
  · rw [dictInsert, if_neg hany]
    have hnone : d.find? (fun p => p.1 = k) = none := by
      rw [List.find?_eq_none]
      intro p hp
      exact fun hc => hany (List.any_eq_true.2 ⟨p, hp, hc⟩)
    simp [dictFind, List.find?_append, hnone]

/-- Writing one key leaves the value read at any other key unchanged. -/
theorem dictFind_dictInsert_other (d : List (String × List String)) (k k' : String)
    (v : List String) (h : k' ≠ k) :
    dictFind (dictInsert d k v) k' = dictFind d k' := by
  by_cases hany : d.any (fun p => p.1 = k)
  · rw [dictInsert, if_pos hany]
    clear hany
    induction d with
    | nil => simp [dictFind]
    | cons q rest ih =>
      by_cases hq : q.1 = k'
      · have hqk : ¬ q.1 = k := fun hc => h (hq ▸ hc.symm ▸ rfl)
        simp [dictFind, List.find?_cons, hq, hqk, h]
      · by_cases hqk : q.1 = k
        · simpa [dictFind, List.find?_cons, hq, hqk, h.symm] using ih
        · simpa [dictFind, List.find?_cons, hq, hqk] using ih
  · rw [dictInsert, if_neg hany]
    have : ¬ ((k, v).1 = k') := fun hc => h hc.symm
    simp [dictFind, List.find?_append, this]

/-- Folding further directories whose labels all differ from `k` leaves the
value read at `k` unchanged. -/
theorem scanFold_preserve (train_path : String) :
    ∀ (dirs : List (String × List String)) (acc : List (String × List String)) (k : String),
      (∀ p ∈ dirs, dirLabel p.1 ≠ k) →
      dictFind (dirs.foldl
        (fun data_pair p => dictInsert data_pair (dirLabel p.1) (dirFiles train_path p)) acc) k
        = dictFind acc k := by
  intro dirs
  induction dirs with
  | nil => intro acc k _; rfl
  | cons q rest ih =>
    intro acc k hne
    rw [List.foldl_cons, ih _ k (fun p hp => hne p (List.mem_cons_of_mem _ hp)),
      dictFind_dictInsert_other _ _ _ _ (fun hc => hne q (by simp) hc.symm)]

/-- With pairwise-distinct label prefixes, the scanned index maps each child
directory's label to exactly that child's joined file paths. -/
theorem scanFold_find (train_path : String) :
    ∀ (dirs : List (String × List String)) (acc : List (String × List String)),
      ((dirs.map (fun p => dirLabel p.1)).Nodup) →
      ∀ p ∈ dirs,
        dictFind (dirs.foldl
          (fun data_pair q => dictInsert data_pair (dirLabel q.1) (dirFiles train_path q)) acc)
          (dirLabel p.1)
          = some (dirFiles train_path p) := by
  intro dirs
  induction dirs with
  | nil => intro acc _ p hp; simp at hp
  | cons q rest ih =>
    intro acc hnd p hp
    rcases List.mem_cons.1 hp with heq | hrest
    · subst heq
      rw [List.foldl_cons,
        scanFold_preserve train_path rest _ (dirLabel p.1)
          (fun r hr hc =>
            (List.nodup_cons.1 hnd).1 (by
              have hmem := List.mem_map_of_mem (fun q => dirLabel q.1) hr
              simpa [hc] using hmem)),
        dictFind_dictInsert_self]
    · exact ih _ (List.nodup_cons.1 hnd).2 p hrest

/-- A key outside the task's enumeration anywhere in the items makes the
burapha generator raise, under either declared schema. -/
theorem buraphaRun_err (task : String) :
    ∀ (items : List (String × String)) (schema : String) (c : Nat),
      (schema = "source" ∨ schema = "seacrowd_imtext") →
      (∃ p ∈ items, p.1 ∉ buraphaLabels task) →
      ((buraphaRun schema task items c).2).isSome := by
  intro items
  induction items with
  | nil => rintro schema c _ ⟨p, hp, _⟩; simp at hp
  | cons q rest ih =>
    rintro schema c hs ⟨p, hp, hm⟩
    obtain ⟨key, img⟩ := q
    rcases List.mem_cons.1 hp with heq | hrest
    · subst heq
      have herr := listIndex_of_not_mem (l := buraphaLabels task) (by simpa using hm)
      rcases hs with h | h <;> subst h <;> simp [buraphaRun, herr]
    · by_cases hk : key ∈ buraphaLabels task
      · have hok := listIndex_of_mem hk
        have := ih schema (c + 1) hs ⟨p, hrest, hm⟩
        rcases hs with h | h <;> subst h <;> simpa [buraphaRun, hok] using this
      · have herr := listIndex_of_not_mem hk
        rcases hs with h | h <;> subst h <;> simp [buraphaRun, herr]

/-- When every key is in the task's enumeration, the burapha generator never
raises, for any schema. -/
theorem buraphaRun_none (schema task : String) (items : List (String × String)) (c : Nat)
    (hall : ∀ p ∈ items, p.1 ∈ buraphaLabels task) :
    ((buraphaRun schema task items c).2) = none := by
  by_cases h1 : schema = "source"
  · subst h1; rw [buraphaRun_source_char task items hall c]
  · by_cases h2 : schema = "seacrowd_imtext"
    · subst h2; rw [buraphaRun_imtext_char task items hall c]
    · rw [buraphaRun_unknown h1 h2 task items c]

/-! ## Claims -/

/-- C1 (amended): the burapha_th generator (every schema), the mswc generator
(every schema) and the cub_bahasa generator under the unified image-text
schema yield keys `0, 1, 2, ...` with no gaps or repeats; under the
cub_bahasa source schema the yielded keys are instead the pandas row indices
of the processed prefix of the split's table. -/
theorem claim_C1_sequential_ids :
    (∀ (schema task : String) (filepath : List (String × List String)) (split : String),
      ((buraphaGenerateExamples schema task filepath split).1).map Prod.fst
        = List.range ((buraphaGenerateExamples schema task filepath split).1).length)
  ∧ (∀ (schema : String) (tables : List (List MswcRow)),
      ((mswcGenerateExamples schema tables).1).map Prod.fst
        = List.range ((mswcGenerateExamples schema tables).1).length)
  ∧ (∀ (data : List (Nat × CubRow)),
      ((cubGenerateExamples "seacrowd_imtext" data).1).map Prod.fst
        = List.range ((cubGenerateExamples "seacrowd_imtext" data).1).length)
  ∧ (∀ (data : List (Nat × CubRow)),
      ((cubGenerateExamples "source" data).1).map Prod.fst
        = (data.map Prod.fst).take ((cubGenerateExamples "source" data).1).length) := by
  refine ⟨?_, ?_, ?_, ?_⟩
  · intro schema task filepath split
    rw [List.range_eq_range']
    exact buraphaRun_ids schema task (buraphaItems filepath) 0
  · intro schema tables
    rw [List.range_eq_range']
    unfold mswcGenerateExamples
    by_cases h1 : schema = "source"
    · simp only [h1, if_pos rfl]
      exact mswcYieldAll_ids tables 0
    · by_cases h2 : MSWC_SUPPORTED_SCHEMA_STRINGS.contains schema
      · simp only [if_neg h1, h2, if_pos rfl]
        exact mswcYieldAll_ids tables 0
      · have h3 : schema ∉ MSWC_SUPPORTED_SCHEMA_STRINGS := by simpa using h2
        simp [h1, h3]
  · intro data
    rw [List.range_eq_range']
    rw [show cubGenerateExamples "seacrowd_imtext" data = cubImtextGen 0 data from by
      simp [cubGenerateExamples]]
    exact cubImtextGen_ids data 0
  · intro data
    rw [show cubGenerateExamples "source" data = cubSourceGen data from by
      simp [cubGenerateExamples]]
    exact cubSourceGen_ids data

/-- C1 fails as stated: under the cub_bahasa source schema, the TEST split of
a fully-joined two-image dataset (first image assigned to train, second to
test) yields the single key 1 — the pandas row index — not a sequence
starting at 0. -/
theorem claim_C1_counterexample :
    ((cubGenerateExamples "source"
        (cubSplitData (cubJoin cubDemo2Images cubDemo2Caps cubDemo2Labels cubDemo2Splits) 0)).1).map
      Prod.fst = [1]
  ∧ ((cubGenerateExamples "source"
        (cubSplitData (cubJoin cubDemo2Images cubDemo2Caps cubDemo2Labels cubDemo2Splits) 0)).1).map
      Prod.fst ≠ List.range
        ((cubGenerateExamples "source"
          (cubSplitData (cubJoin cubDemo2Images cubDemo2Caps cubDemo2Labels
            cubDemo2Splits) 0)).1).length := by
  constructor <;> decide

/-- C2 (amended): running any of the three generators with a schema outside
its declared set yields no records and produces no partial output; the mswc
generator additionally raises `ValueError`, while the burapha_th and
cub_bahasa generators return silently without raising (their schema check
lives in `_info`, not in the generator). -/
theorem claim_C2_unknown_schema :
    (∀ (schema task : String) (filepath : List (String × List String)) (split : String),
      schema ≠ "source" → schema ≠ "seacrowd_imtext" →
      buraphaGenerateExamples schema task filepath split = ([], none))
  ∧ (∀ (schema : String) (data : List (Nat × CubRow)),
      schema ≠ "source" → schema ≠ "seacrowd_imtext" →
      cubGenerateExamples schema data = ([], none))
  ∧ (∀ (schema : String) (tables : List (List MswcRow)),
      schema ≠ "source" → schema ∉ MSWC_SUPPORTED_SCHEMA_STRINGS →
      mswcGenerateExamples schema tables = ([], some "ValueError")) := by
  refine ⟨?_, ?_, ?_⟩
  · intro schema task filepath split h1 h2
    exact buraphaRun_unknown h1 h2 task (buraphaItems filepath) 0
  · intro schema data h1 h2
    simp [cubGenerateExamples, h1, h2]
  · intro schema tables h1 h2
    have h3 : schema ≠ "seacrowd_sptext" := by
      simpa [MSWC_SUPPORTED_SCHEMA_STRINGS] using h2
    simp [mswcGenerateExamples, MSWC_SUPPORTED_SCHEMA_STRINGS, h1, h3]

theorem claim_C2_unknown_schema_witness :
    buraphaGenerateExamples "bogus_schema" "digit" [("00", ["a.png"])] "train" = ([], none)
  ∧ cubGenerateExamples "bogus_schema" [(0, cubDemoRow)] = ([], none)
  ∧ mswcGenerateExamples "bogus_schema" [[{ fields := [("file", "x.wav")] }]]
      = ([], some "ValueError") :=
  ⟨claim_C2_unknown_schema.1 "bogus_schema" "digit" [("00", ["a.png"])] "train"
      (by decide) (by decide),
   claim_C2_unknown_schema.2.1 "bogus_schema" [(0, cubDemoRow)] (by decide) (by decide),
   claim_C2_unknown_schema.2.2 "bogus_schema" [[{ fields := [("file", "x.wav")] }]]
      (by decide) (by decide)⟩

/-- C2 fails as stated: the burapha_th generator, run with the unknown schema
`"bogus_schema"` over a nonempty index, terminates without raising any error
(it also yields nothing). -/
theorem claim_C2_counterexample :
    ((buraphaGenerateExamples "bogus_schema" "digit" [("00", ["a.png"])] "train").2).isSome
      = false := by
  decide

/-- C3: a joined row with one image and N caption pairs, under the unified
image-text schema, yields exactly N records without raising; each record
carries the same single-element `image_paths`, the i-th Indonesian caption as
`texts`, the i-th English caption as `context`, and the record keys increase
by exactly one from the starting counter. -/
theorem claim_C3_fanout (counter : Nat) (row : CubRow) (cls : String)
    (hcls : dictGet IMAGE_CLASS row.class_id = .ok cls)
    (hlen : row.en_caption.length = row.id_caption.length) :
    ((cubImtextRow counter row).1).length = row.id_caption.length
  ∧ (cubImtextRow counter row).2 = none
  ∧ ((cubImtextRow counter row).1).map Prod.fst
      = List.range' counter row.id_caption.length
  ∧ (∀ i, i < row.id_caption.length →
      ((cubImtextRow counter row).1)[i]?
        = some (counter + i, .imtext (toString (counter + i)) [row.image_path]
            (row.id_caption.getD i "") (row.en_caption.getD i "") [cls])) := by
  rw [cubImtextRow_char hcls]
  refine ⟨by simp, rfl, ?_, ?_⟩
  · rw [List.map_map]
    rw [show (Prod.fst ∘ fun i => ((counter + i : Nat),
        CubRecord.imtext (toString (counter + i)) [row.image_path]
          (row.id_caption.getD i "") (row.en_caption.getD i "") [cls]))
        = (fun i => counter + i) from rfl]
    rw [← List.range'_eq_map_range]
  · intro i hi
    rw [List.getElem?_map, List.getElem?_range hi]
    rfl

theorem claim_C3_fanout_witness :
    ((cubImtextRow 0 cubDemoRow).1).length = 3
  ∧ ((cubImtextRow 0 cubDemoRow).1).map Prod.fst = List.range' 0 3
  ∧ ((cubImtextRow 0 cubDemoRow).1)[1]?
      = some (1, .imtext "1" ["root/images/a.jpg"] "i2" "a2"
          ["001.Black_footed_Albatross"]) := by
  have h := claim_C3_fanout 0 cubDemoRow "001.Black_footed_Albatross"
    (by decide) (by decide)
  exact ⟨h.1.trans (by decide), h.2.2.1.trans (by decide),
    (h.2.2.2 1 (by decide)).trans (by decide)⟩

/-- C4: under the source schema, when every key of the index is in the
task's enumeration, the record yielded for the `j`-th item carries the label
code `indexOf key`, and indexing the enumeration with that code returns the
original directory label string. -/
theorem claim_C4_roundtrip (task : String) (items : List (String × String)) (c j : Nat)
    (key img : String) (hj : items[j]? = some (key, img))
    (hall : ∀ p ∈ items, p.1 ∈ buraphaLabels task) :
    ((buraphaRun "source" task items c).1)[j]?
      = some (c + j, .source (toString (c + j)) img
          [List.indexOf key (buraphaLabels task)])
  ∧ (buraphaLabels task).getD (List.indexOf key (buraphaLabels task)) "" = key := by
  have hkey : key ∈ buraphaLabels task := hall (key, img) (List.getElem?_mem hj)
  constructor
  · rw [buraphaRun_source_char task items hall c]
    exact burSourceExpected_getElem task items c j key img hj
  · rw [List.getD_eq_getElem _ _ (List.indexOf_lt_length.2 hkey)]
    exact List.getElem_indexOf (List.indexOf_lt_length.2 hkey)

theorem claim_C4_roundtrip_witness :
    ((buraphaRun "source" "digit" [("07", "x.png")] 0).1)[0]?
      = some (0, .source (toString 0) "x.png" [List.indexOf "07" (buraphaLabels "digit")])
  ∧ (buraphaLabels "digit").getD (List.indexOf "07" (buraphaLabels "digit")) "" = "07" :=
  claim_C4_roundtrip "digit" [("07", "x.png")] 0 0 "07" "x.png" (by decide)
    (by decide)

/-- C5: label-code resolution is position-by-value lookup in the closed
enumeration; a value absent from the enumeration (burapha_th) or a class id
absent from the dictionary (cub_bahasa, source branch) makes the generation
pass raise an unrecovered lookup error, and when every label is present the
error branch is unreachable (no error is raised). -/
theorem claim_C5_label_resolution :
    (∀ (l : List String) (x : String), x ∈ l → listIndex l x = .ok (List.indexOf x l))
  ∧ (∀ (l : List String) (x : String), x ∉ l → listIndex l x = .error "ValueError")
  ∧ (∀ (task : String) (items : List (String × String)) (schema : String) (c : Nat),
      (schema = "source" ∨ schema = "seacrowd_imtext") →
      (∃ p ∈ items, p.1 ∉ buraphaLabels task) →
      ((buraphaRun schema task items c).2).isSome)
  ∧ (∀ (schema task : String) (items : List (String × String)) (c : Nat),
      (∀ p ∈ items, p.1 ∈ buraphaLabels task) →
      ((buraphaRun schema task items c).2) = none)
  ∧ (∀ (data : List (Nat × CubRow)),
      (∃ p ∈ data, p.2.class_id ∉ IMAGE_CLASS.map Prod.fst) →
      ((cubSourceGen data).2).isSome)
  ∧ (∀ (data : List (Nat × CubRow)),
      (∀ p ∈ data, p.2.class_id ∈ IMAGE_CLASS.map Prod.fst) →
      ((cubSourceGen data).2) = none) :=
  ⟨fun _ _ h => listIndex_of_mem h, fun _ _ h => listIndex_of_not_mem h,
   fun task items schema c hs he => buraphaRun_err task items schema c hs he,
   fun schema task items c hall => buraphaRun_none schema task items c hall,
   cubSourceGen_err, cubSourceGen_ok⟩

theorem claim_C5_label_resolution_witness :
    listIndex Seacrowd.label_chr_dig "07" = .ok (List.indexOf "07" Seacrowd.label_chr_dig)
  ∧ listIndex Seacrowd.label_chr_dig "99" = .error "ValueError"
  ∧ ((buraphaRun "source" "digit" [("99", "x.png")] 0).2).isSome
  ∧ ((buraphaRun "source" "digit" [("07", "x.png")] 0).2) = none
  ∧ ((cubSourceGen [(0, cubDemoBadRow)]).2).isSome
  ∧ ((cubSourceGen [(0, cubDemoRow)]).2) = none :=
  ⟨claim_C5_label_resolution.1 label_chr_dig "07" (by decide),
   claim_C5_label_resolution.2.1 label_chr_dig "99" (by decide),
   claim_C5_label_resolution.2.2.1 "digit" [("99", "x.png")] "source" 0 (Or.inl rfl)
     (by decide),
   claim_C5_label_resolution.2.2.2.1 "source" "digit" [("07", "x.png")] 0 (by decide),
   claim_C5_label_resolution.2.2.2.2.1 [(0, cubDemoBadRow)] (by decide),
   claim_C5_label_resolution.2.2.2.2.2 [(0, cubDemoRow)] (by decide)⟩

/-- C6: the layout scanner maps each child directory's label — the first
`-`-delimited segment of its name — to the joined paths of exactly that
child's files, provided the children's label prefixes are pairwise
distinct. -/
theorem claim_C6_layout_scanner (train_path : String) (dirs : List (String × List String))
    (hnd : (dirs.map (fun p => dirLabel p.1)).Nodup) :
    ∀ p ∈ dirs, dictFind (scanLayout train_path dirs) (dirLabel p.1)
      = some (dirFiles train_path p) := by
  intro p hp
  exact scanFold_find train_path dirs [] hnd p hp

theorem claim_C6_layout_scanner_witness :
    dictFind (scanLayout "tp" [("00-a", ["x.png", "y.png"]), ("01-b", ["z.png"])])
      (dirLabel "00-a") = some (dirFiles "tp" ("00-a", ["x.png", "y.png"])) :=
  claim_C6_layout_scanner "tp" [("00-a", ["x.png", "y.png"]), ("01-b", ["z.png"])]
    (by decide) ("00-a", ["x.png", "y.png"]) (by decide)

/-- C7: the join has inner-join semantics — an image whose name matches no
caption entry, or whose id matches no label row or no split row, contributes
zero joined rows (and hence zero records); in the concrete dataset of 3
images where exactly 2 have caption entries (3 captions each) and all have
labels and train split assignments, the unified schema yields exactly 2 × 3
records and no error. -/
theorem claim_C7_inner_join :
    (∀ (caps : List CubCaption) (labels : List CubLabel) (splits : List CubSplit)
      (img : CubImage), (∀ c ∈ caps, c.image_name ≠ imageName img.image_path) →
      cubJoinImage (groupCaptions caps) labels splits img = [])
  ∧ (∀ (grouped : List CubTextRow) (labels : List CubLabel) (splits : List CubSplit)
      (img : CubImage), (∀ l ∈ labels, l.image_id ≠ img.image_id) →
      cubJoinImage grouped labels splits img = [])
  ∧ (∀ (grouped : List CubTextRow) (labels : List CubLabel) (splits : List CubSplit)
      (img : CubImage), (∀ s ∈ splits, s.image_id ≠ img.image_id) →
      cubJoinImage grouped labels splits img = [])
  ∧ ((cubGenerateExamples "seacrowd_imtext"
      (cubSplitData (cubJoin cubDemo3Images cubDemo3Caps cubDemo3Labels
        cubDemo3Splits) 1)).1).length = 2 * 3
  ∧ (cubGenerateExamples "seacrowd_imtext"
      (cubSplitData (cubJoin cubDemo3Images cubDemo3Caps cubDemo3Labels
        cubDemo3Splits) 1)).2 = none := by
  refine ⟨fun _ labels splits _ h => cubJoinImage_no_caption labels splits h,
    ?_, ?_, by decide, by decide⟩
  · intro grouped labels splits img h
    have hfil : labels.filter (fun l => l.image_id = img.image_id) = [] := by
      rw [List.filter_eq_nil_iff]
      intro l hl
      simpa using h l hl
    simp [cubJoinImage, hfil]
  · intro grouped labels splits img h
    have hfil : splits.filter (fun s => s.image_id = img.image_id) = [] := by
      rw [List.filter_eq_nil_iff]
      intro s hs
      simpa using h s hs
    simp [cubJoinImage, hfil]

theorem claim_C7_inner_join_witness :
    cubJoinImage (groupCaptions cubDemo3Caps) cubDemo3Labels cubDemo3Splits
      { image_id := 3, image_path := "root/images/c.jpg" } = [] :=
  claim_C7_inner_join.1 cubDemo3Caps cubDemo3Labels cubDemo3Splits
    { image_id := 3, image_path := "root/images/c.jpg" } (by decide)

/-- C8: under the unified image-text schema, the burapha_th (caption-less)
generator yields for the `j`-th item a record whose `texts` is null, whose
metadata `context` is null, and whose metadata `labels` list holds exactly
the one position of the item's label in the task's enumeration. -/
theorem claim_C8_imtext_null_caption (task : String) (items : List (String × String))
    (c j : Nat) (key img : String) (hj : items[j]? = some (key, img))
    (hall : ∀ p ∈ items, p.1 ∈ buraphaLabels task) :
    ((buraphaRun "seacrowd_imtext" task items c).1)[j]?
      = some (c + j, .imtext (toString (c + j)) [img] none none
          [List.indexOf key (buraphaLabels task)]) := by
  rw [buraphaRun_imtext_char task items hall c]
  exact burImtextExpected_getElem task items c j key img hj

theorem claim_C8_imtext_null_caption_witness :
    ((buraphaRun "seacrowd_imtext" "digit" [("07", "x.png")] 0).1)[0]?
      = some (0, .imtext (toString 0) ["x.png"] none none
          [List.indexOf "07" (buraphaLabels "digit")]) :=
  claim_C8_imtext_null_caption "digit" [("07", "x.png")] 0 0 "07" "x.png"
    (by decide) (by decide)

/-- C9: label lookup is deterministic — any two records yielded for items
carrying the same directory label L resolve to the identical label-code
list, namely the one position of L in the task's enumeration. -/
theorem claim_C9_deterministic_lookup (task : String) (items : List (String × String))
    (schema : String) (c j k : Nat) (keyL imgJ imgK : String) (v1 v2 : BurRecord)
    (hs : schema = "source" ∨ schema = "seacrowd_imtext")
    (hj : items[j]? = some (keyL, imgJ)) (hk : items[k]? = some (keyL, imgK))
    (hall : ∀ p ∈ items, p.1 ∈ buraphaLabels task)
    (h1 : ((buraphaRun schema task items c).1)[j]? = some (c + j, v1))
    (h2 : ((buraphaRun schema task items c).1)[k]? = some (c + k, v2)) :
    burLabelCodes v1 = [List.indexOf keyL (buraphaLabels task)]
  ∧ burLabelCodes v2 = [List.indexOf keyL (buraphaLabels task)]
  ∧ burLabelCodes v1 = burLabelCodes v2 := by
  rcases hs with h | h <;> subst h
  · rw [buraphaRun_source_char task items hall c] at h1 h2
    rw [burSourceExpected_getElem task items c j keyL imgJ hj] at h1
    rw [burSourceExpected_getElem task items c k keyL imgK hk] at h2
    obtain ⟨-, hv1⟩ := Prod.mk.injEq .. ▸ Option.some.inj h1
    obtain ⟨-, hv2⟩ := Prod.mk.injEq .. ▸ Option.some.inj h2
    rw [← hv1, ← hv2]
    exact ⟨rfl, rfl, rfl⟩
  · rw [buraphaRun_imtext_char task items hall c] at h1 h2
    rw [burImtextExpected_getElem task items c j keyL imgJ hj] at h1
    rw [burImtextExpected_getElem task items c k keyL imgK hk] at h2
    obtain ⟨-, hv1⟩ := Prod.mk.injEq .. ▸ Option.some.inj h1
    obtain ⟨-, hv2⟩ := Prod.mk.injEq .. ▸ Option.some.inj h2
    rw [← hv1, ← hv2]
    exact ⟨rfl, rfl, rfl⟩

theorem claim_C9_deterministic_lookup_witness :
    burLabelCodes (.source "0" "a.png" [7]) = [List.indexOf "07" (buraphaLabels "digit")]
  ∧ burLabelCodes (.source "1" "b.png" [7]) = [List.indexOf "07" (buraphaLabels "digit")]
  ∧ burLabelCodes (.source "0" "a.png" [7]) = burLabelCodes (.source "1" "b.png" [7]) :=
  claim_C9_deterministic_lookup "digit" [("07", "a.png"), ("07", "b.png")] "source" 0 0 1
    "07" "a.png" "b.png" (.source "0" "a.png" [7]) (.source "1" "b.png" [7])
    (Or.inl rfl) (by decide) (by decide) (by decide) (by decide) (by decide)

/-- C10: in burapha_th, the label-to-files index handed to both split
generators is scanned solely from the train directory (the test path and
test listing are never read), the example generator never reads its split
argument, and consequently the train and test generators yield exactly the
same sequence of (key, record) pairs for any schema. -/
theorem claim_C10_train_test_equal :
    (∀ (train_path xp xp2 : String) (trainDirs testDirs testDirs2 : List (String × List String)),
      buraphaSplitGenerators train_path xp trainDirs testDirs
        = buraphaSplitGenerators train_path xp2 trainDirs testDirs2)
  ∧ (∀ (train_path xp : String) (trainDirs testDirs : List (String × List String)),
      buraphaSplitGenerators train_path xp trainDirs testDirs
        = [(scanLayout train_path trainDirs, "train"), (scanLayout train_path trainDirs, "test")])
  ∧ (∀ (schema task : String) (filepath : List (String × List String)) (s1 s2 : String),
      buraphaGenerateExamples schema task filepath s1
        = buraphaGenerateExamples schema task filepath s2)
  ∧ (∀ (schema task train_path xp : String) (trainDirs testDirs : List (String × List String)),
      buraphaGenerateExamples schema task (scanLayout train_path trainDirs) "train"
        = buraphaGenerateExamples schema task (scanLayout train_path trainDirs) "test") :=
  ⟨fun _ _ _ _ _ _ => rfl, fun _ _ _ _ => rfl, fun _ _ _ _ _ => rfl,
   fun _ _ _ _ _ _ => rfl⟩

end Seacrowd

